import Mathlib

/-!
Verification of the BinanceAgent repository: a conversational HTTP service
(`api.py`) over a LangChain agent (`agent.py`) with three Binance market-data
tool adapters (`langchain_tools.py`).

The Python source is shallowly embedded: pure reshaping code becomes Lean
functions over rationals (Python floats are modelled as exact rationals);
code that may raise becomes `Except String` values carrying the exception
text; the external agent executor, the LLM, and HTTP transport are modelled
as oracle function parameters.  The in-memory conversation store is a map
from integer thread id to a list of (role, text) turns.
-/

deriving instance DecidableEq for Except

namespace BinanceAgent

/-- A conversation turn speaker role, as stored by `api.py`
(`("human", ...)` / `("assistant", ...)` tuples). -/
inductive Role where
  | human
  | assistant
deriving DecidableEq, Repr

/-- One stored conversation turn: a (role, text) pair. -/
abbrev Turn := Role × String

/-- Result dict of `BinanceLangChainAgent.chat` / `.achat`
(`agent.py` lines 92-101 / 120-129): keys `output`, `success`,
and optionally `error`. -/
structure ChatResult where
  output : String
  success : Bool
  error : Option String
deriving DecidableEq, Repr

/-- Outcome of `self.agent_executor.invoke(...)` (external LangChain code,
an oracle here): either it raises an exception with text `e`
(`Except.error e`), or it returns a dict whose `"output"` key is modelled
as `Option String` (`none` when the key is absent, so that
`result.get("output", default)` falls back). -/
abbrev InvokeOutcome := Except String (Option String)

/-- `BinanceLangChainAgent.chat` (`agent.py` lines 75-101).
The executor invocation is the oracle `invoke`, receiving the message and
`chat_history or []`.  The whole body is wrapped in try/except, so the
function is total: success yields `output = result.get("output", "I couldn't
process your request.")` with `success: True`; an exception `e` yields the
`Error processing request` text with `success: False` and `error = str(e)`. -/
def BinanceLangChainAgent.chat
    (invoke : String → List Turn → InvokeOutcome)
    (message : String) (chat_history : Option (List Turn)) : ChatResult :=
  match invoke message (chat_history.getD []) with
  | .ok result =>
      { output := result.getD "I couldn't process your request."
        success := true
        error := none }
  | .error e =>
      { output := "Error processing request: " ++ e
        success := false
        error := some e }

/-- `BinanceLangChainAgent.achat` (`agent.py` lines 103-129): the async
variant; its body is identical to `chat` except that it awaits
`agent_executor.ainvoke`, modelled by the same oracle shape. -/
def BinanceLangChainAgent.achat
    (ainvoke : String → List Turn → InvokeOutcome)
    (message : String) (chat_history : Option (List Turn)) : ChatResult :=
  match ainvoke message (chat_history.getD []) with
  | .ok result =>
      { output := result.getD "I couldn't process your request."
        success := true
        error := none }
  | .error e =>
      { output := "Error processing request: " ++ e
        success := false
        error := some e }

/-- Python `str.upper()` on ASCII symbol strings: upper-case each
character. -/
def pyUpper (s : String) : String := String.mk (s.data.map Char.toUpper)

/-- Outbound request parameters of `BinancePublicAPI.get_klines`
(`langchain_tools.py` lines 30-41): the `params` dict sent to the
exchange. -/
structure KlinesParams where
  symbol : String
  interval : String
  limit : Int
deriving DecidableEq, Repr

/-- The `params` dict built by `BinancePublicAPI.get_klines`
(`langchain_tools.py` lines 33-38): `symbol.upper()`, the interval as
given, and `min(limit, 1000)`. -/
def BinancePublicAPI.get_klines_params
    (symbol : String) (interval : String) (limit : Int) : KlinesParams :=
  { symbol := pyUpper symbol
    interval := interval
    limit := min limit 1000 }

/-! ### Python primitives used by the tool adapters

Python `float(...)` on the decimal strings returned by the exchange, dict
key lookup (`KeyError` on a missing key), and the `max`/`min`/`sum`
builtins.  Exception messages are carried as strings; floats are modelled
as exact rationals. -/

/-- Python's leading/trailing-whitespace strip applied by `float(...)` and
`int(...)` to their string argument. -/
def pyStrip (s : String) : String :=
  String.mk
    (((s.data.dropWhile Char.isWhitespace).reverse.dropWhile
      Char.isWhitespace).reverse)

/-- Value of a nonempty string of decimal digits; `none` when any
character is not a digit. -/
def decDigits (cs : List Char) : Option Nat :=
  if cs.all Char.isDigit then
    some (cs.foldl (fun n c => n * 10 + (c.toNat - 48)) 0)
  else none

/-- Python `float(s)` on the plain decimal forms the exchange emits
(optional sign, digits, optional fractional part); other inputs fail.
Exponent/infinity forms are not modelled — no exchange field uses them. -/
def pyFloat (s : String) : Option ℚ :=
  let go : List Char → Option ℚ := fun cs =>
    let ip := cs.takeWhile (fun c => c ≠ '.')
    let rest := cs.dropWhile (fun c => c ≠ '.')
    match rest with
    | [] =>
        if ip.isEmpty then none else (decDigits ip).map (fun n => (n : ℚ))
    | _ :: fp =>
        if fp.any (fun c => c = '.') then none
        else if ip.isEmpty && fp.isEmpty then none
        else
          match decDigits ip, decDigits fp with
          | some a, some b => some ((a : ℚ) + (b : ℚ) / (10 : ℚ) ^ fp.length)
          | _, _ => none
  match (pyStrip s).toList with
  | '+' :: cs => go cs
  | '-' :: cs => (go cs).map Neg.neg
  | cs => go cs

/-- `float(s)` as an exception-carrying computation: `ValueError` text on
failure, as Python prints it. -/
def pyFloatE (s : String) : Except String ℚ :=
  match pyFloat s with
  | some q => .ok q
  | none => .error ("could not convert string to float: '" ++ s ++ "'")

/-- Python `int(s)` on plain decimal integers, with the `ValueError` text
on failure. -/
def pyIntE (s : String) : Except String Int :=
  let fail : Except String Int :=
    .error ("invalid literal for int() with base 10: '" ++ s ++ "'")
  match (pyStrip s).toList with
  | '-' :: cs =>
      if cs.isEmpty then fail
      else match decDigits cs with
        | some n => .ok (-(n : Int))
        | none => fail
  | '+' :: cs =>
      if cs.isEmpty then fail
      else match decDigits cs with
        | some n => .ok (n : Int)
        | none => fail
  | cs =>
      if cs.isEmpty then fail
      else match decDigits cs with
        | some n => .ok (n : Int)
        | none => fail

/-- A parsed JSON object with string-valued fields, as the exchange
endpoints return: `data[k]` with `KeyError` (whose `str` is `'k'`) when
the key is absent. -/
def dictGet (d : List (String × String)) (k : String) : Except String String :=
  match d.lookup k with
  | some v => .ok v
  | none => .error ("'" ++ k ++ "'")

/-- Python `max` on a list (raises on empty, hence `Option`). -/
def pyMax : List ℚ → Option ℚ
  | [] => none
  | x :: xs => some (xs.foldl max x)

/-- Python `min` on a list (raises on empty, hence `Option`). -/
def pyMin : List ℚ → Option ℚ
  | [] => none
  | x :: xs => some (xs.foldl min x)

/-! ### String formatting

`formatUSD` models Python's `"${:,.2f}".format(price)`: two decimals and
thousands separators.  (Tie-breaking of binary-float formatting is
approximated by round-to-nearest on the rational value.)  `ratStr` renders
a rational where `json.dumps` would render a float; the exact digit string
of a float repr is not reproduced, only that some numeral is emitted. -/

/-- Insert a comma after every third character of a reversed digit list. -/
def commaRev (l : List Char) : List Char :=
  if _h : l.length ≤ 3 then l
  else l.take 3 ++ ',' :: commaRev (l.drop 3)
termination_by l.length
decreasing_by
  simp only [List.length_drop]
  omega

/-- `"{:,.2f}".format`: sign, comma-grouped integer part, dot, two
fractional digits. -/
def formatUSD (q : ℚ) : String :=
  let cents : Int := round (q * 100)
  let sign := if cents < 0 then "-" else ""
  let n := cents.natAbs
  let ip := n / 100
  let fp := n % 100
  let ipStr := String.mk ((commaRev (toString ip).toList.reverse).reverse)
  let fpStr := (if fp < 10 then "0" else "") ++ toString fp
  sign ++ ipStr ++ "." ++ fpStr

/-- Numeral rendering for the JSON serializations. -/
def ratStr (q : ℚ) : String :=
  if q.den = 1 then toString q.num ++ ".0"
  else toString q.num ++ "/" ++ toString q.den

/-- JSON string literal (the exchange's field values need no escaping). -/
def jsonStr (s : String) : String := "\"" ++ s ++ "\""

/-! ### Tool adapters (`langchain_tools.py`)

Each `_run` wraps its whole body in try/except and returns a string.  The
Market Data Client call (`requests.get` + `raise_for_status` + `.json()`)
is an oracle `Except String` argument: `.error e` is a raised request
exception with text `e`, `.ok d` the parsed JSON payload. -/

/-- The try-block of `GetCurrentPriceTool._run` (`langchain_tools.py`
lines 74-77): client call, `data['price']` lookup, `float(...)`,
then the `${:,.2f}` formatting. -/
def GetCurrentPriceTool.runE (symbol : String)
    (get_price : Except String (List (String × String))) :
    Except String String := do
  let data ← get_price
  let ps ← dictGet data "price"
  let price ← pyFloatE ps
  pure ("Current price of " ++ pyUpper symbol ++ ": $" ++ formatUSD price)

/-- `GetCurrentPriceTool._run` (`langchain_tools.py` lines 72-79). -/
def GetCurrentPriceTool.run (symbol : String)
    (get_price : Except String (List (String × String))) : String :=
  match GetCurrentPriceTool.runE symbol get_price with
  | .ok s => s
  | .error e => "Error getting price for " ++ symbol ++ ": " ++ e

/-- The `summary` dict of `GetMarketSummaryTool._run`
(`langchain_tools.py` lines 101-113). -/
structure MarketSummary where
  symbol : String
  current_price : ℚ
  price_change_24h : ℚ
  price_change_percent_24h : ℚ
  high_24h : ℚ
  low_24h : ℚ
  volume_24h : ℚ
  quote_volume_24h : ℚ
  number_of_trades : Int
  open_price : ℚ
  close_price : ℚ
deriving DecidableEq, Repr

/-- `json.dumps(summary, indent=2)` for the market summary. -/
def marketSummaryJson (m : MarketSummary) : String :=
  "\x7b\n  \"symbol\": " ++ jsonStr m.symbol ++
  ",\n  \"current_price\": " ++ ratStr m.current_price ++
  ",\n  \"price_change_24h\": " ++ ratStr m.price_change_24h ++
  ",\n  \"price_change_percent_24h\": " ++ ratStr m.price_change_percent_24h ++
  ",\n  \"high_24h\": " ++ ratStr m.high_24h ++
  ",\n  \"low_24h\": " ++ ratStr m.low_24h ++
  ",\n  \"volume_24h\": " ++ ratStr m.volume_24h ++
  ",\n  \"quote_volume_24h\": " ++ ratStr m.quote_volume_24h ++
  ",\n  \"number_of_trades\": " ++ toString m.number_of_trades ++
  ",\n  \"open_price\": " ++ ratStr m.open_price ++
  ",\n  \"close_price\": " ++ ratStr m.close_price ++
  "\n\x7d"

/-- The try-block of `GetMarketSummaryTool._run` (`langchain_tools.py`
lines 96-117): field lookups and float/int conversions in source order. -/
def GetMarketSummaryTool.runE
    (get_24h_ticker : Except String (List (String × String))) :
    Except String MarketSummary := do
  let data ← get_24h_ticker
  let sym ← dictGet data "symbol"
  let lastPrice ← pyFloatE (← dictGet data "lastPrice")
  let priceChange ← pyFloatE (← dictGet data "priceChange")
  let priceChangePercent ← pyFloatE (← dictGet data "priceChangePercent")
  let highPrice ← pyFloatE (← dictGet data "highPrice")
  let lowPrice ← pyFloatE (← dictGet data "lowPrice")
  let volume ← pyFloatE (← dictGet data "volume")
  let quoteVolume ← pyFloatE (← dictGet data "quoteVolume")
  let count ← pyIntE (← dictGet data "count")
  let openPrice ← pyFloatE (← dictGet data "openPrice")
  let lastPrice2 ← pyFloatE (← dictGet data "lastPrice")
  pure
    { symbol := sym
      current_price := lastPrice
      price_change_24h := priceChange
      price_change_percent_24h := priceChangePercent
      high_24h := highPrice
      low_24h := lowPrice
      volume_24h := volume
      quote_volume_24h := quoteVolume
      number_of_trades := count
      open_price := openPrice
      close_price := lastPrice2 }

/-- `GetMarketSummaryTool._run` (`langchain_tools.py` lines 96-117). -/
def GetMarketSummaryTool.run (symbol : String)
    (get_24h_ticker : Except String (List (String × String))) : String :=
  match GetMarketSummaryTool.runE get_24h_ticker with
  | .ok m => marketSummaryJson m
  | .error e => "Error getting market summary for " ++ symbol ++ ": " ++ e

/-- One raw kline row from `/api/v3/klines`: `k[0]` the open time and
`k[1]`-`k[5]` the open/high/low/close/volume decimal strings (the
remaining columns are never read by `_run`). -/
structure RawKline where
  openTime : Int
  rOpen : String
  rHigh : String
  rLow : String
  rClose : String
  rVolume : String
deriving DecidableEq, Repr

/-- One entry of the `candles` list built by `GetHistoricalDataTool._run`
(`langchain_tools.py` lines 140-148). -/
structure Candle where
  timestamp : Int
  open_ : ℚ
  high : ℚ
  low : ℚ
  close : ℚ
  volume : ℚ
deriving DecidableEq, Repr

/-- The per-candle parse of `_run`'s first loop. -/
def parseCandle (k : RawKline) : Except String Candle := do
  let o ← pyFloatE k.rOpen
  let h ← pyFloatE k.rHigh
  let l ← pyFloatE k.rLow
  let c ← pyFloatE k.rClose
  let v ← pyFloatE k.rVolume
  pure { timestamp := k.openTime, open_ := o, high := h, low := l,
         close := c, volume := v }

/-- The `statistics` dict of `GetHistoricalDataTool._run`
(`langchain_tools.py` lines 162-168). -/
structure HistStats where
  highest_price : ℚ
  lowest_price : ℚ
  average_volume : ℚ
  price_change : ℚ
  price_change_percent : ℚ
deriving DecidableEq, Repr

/-- The `result` dict of `GetHistoricalDataTool._run`
(`langchain_tools.py` lines 157-169). -/
structure HistResult where
  symbol : String
  interval : String
  total_candles : Nat
  recent_candles : List Candle
  statistics : HistStats
deriving DecidableEq, Repr

/-- Python list comprehension over a fallible element computation: the
first raised exception propagates, otherwise the list of results. -/
def mapE {α β : Type} (f : α → Except String β) :
    List α → Except String (List β)
  | [] => .ok []
  | a :: t => do
      let b ← f a
      let bs ← mapE f t
      pure (b :: bs)

/-- The try-block of `GetHistoricalDataTool._run` (`langchain_tools.py`
lines 135-171) in source order: parse the last 10 rows into `candles`,
re-parse highs/lows/volumes over the whole window, take
`first_open = float(klines[0][1])` (IndexError text on an empty window)
and `last_close = float(klines[-1][4])`, then build the statistics; the
percent change divides by `first_open` (ZeroDivisionError text when it is
zero, since Python float division by `0.0` raises). -/
def GetHistoricalDataTool.runE (symbol interval : String)
    (get_klines : Except String (List RawKline)) :
    Except String HistResult := do
  let klines ← get_klines
  let candles ← mapE parseCandle (klines.drop (klines.length - 10))
  let all_highs ← mapE (fun k => pyFloatE k.rHigh) klines
  let all_lows ← mapE (fun k => pyFloatE k.rLow) klines
  let all_volumes ← mapE (fun k => pyFloatE k.rVolume) klines
  let k0 ← match klines.head? with
    | some k => Except.ok k
    | none => Except.error "list index out of range"
  let first_open ← pyFloatE k0.rOpen
  let klast ← match klines.getLast? with
    | some k => Except.ok k
    | none => Except.error "list index out of range"
  let last_close ← pyFloatE klast.rClose
  let highest ← match pyMax all_highs with
    | some q => Except.ok q
    | none => Except.error "max() arg is an empty sequence"
  let lowest ← match pyMin all_lows with
    | some q => Except.ok q
    | none => Except.error "min() arg is an empty sequence"
  let avg ←
    if all_volumes.isEmpty then Except.error "division by zero"
    else Except.ok (all_volumes.sum / (all_volumes.length : ℚ))
  let pcp ←
    if first_open = 0 then Except.error "float division by zero"
    else Except.ok ((last_close - first_open) / first_open * 100)
  pure
    { symbol := pyUpper symbol
      interval := interval
      total_candles := klines.length
      recent_candles := candles
      statistics :=
        { highest_price := highest
          lowest_price := lowest
          average_volume := avg
          price_change := last_close - first_open
          price_change_percent := pcp } }

/-- `json.dumps` of one candle entry. -/
def candleJson (c : Candle) : String :=
  "\x7b \"timestamp\": " ++ toString c.timestamp ++
  ", \"open\": " ++ ratStr c.open_ ++
  ", \"high\": " ++ ratStr c.high ++
  ", \"low\": " ++ ratStr c.low ++
  ", \"close\": " ++ ratStr c.close ++
  ", \"volume\": " ++ ratStr c.volume ++ " \x7d"

/-- `json.dumps(result, indent=2)` for the historical-data result. -/
def histResultJson (r : HistResult) : String :=
  "\x7b\n  \"symbol\": " ++ jsonStr r.symbol ++
  ",\n  \"interval\": " ++ jsonStr r.interval ++
  ",\n  \"total_candles\": " ++ toString r.total_candles ++
  ",\n  \"recent_candles\": [" ++
  String.intercalate ", " (r.recent_candles.map candleJson) ++
  "],\n  \"statistics\": \x7b\n    \"highest_price\": " ++
  ratStr r.statistics.highest_price ++
  ",\n    \"lowest_price\": " ++ ratStr r.statistics.lowest_price ++
  ",\n    \"average_volume\": " ++ ratStr r.statistics.average_volume ++
  ",\n    \"price_change\": " ++ ratStr r.statistics.price_change ++
  ",\n    \"price_change_percent\": " ++
  ratStr r.statistics.price_change_percent ++
  "\n  \x7d\n\x7d"

/-- `GetHistoricalDataTool._run` (`langchain_tools.py` lines 133-173):
the serialized result on success, the `Error getting historical data`
string on any exception. -/
def GetHistoricalDataTool.run (symbol interval : String)
    (get_klines : Except String (List RawKline)) : String :=
  match GetHistoricalDataTool.runE symbol interval get_klines with
  | .ok r => histResultJson r
  | .error e => "Error getting historical data for " ++ symbol ++ ": " ++ e

/-! ### HTTP layer (`api.py`)

The agent is an oracle `achat : String → List Turn → ChatResult`
(justified by `BinanceLangChainAgent.achat` being total, see C1).  The
conversation store `conversation_histories : Dict[int, List]` is a map
`Int → Option (List Turn)` (`none` = key absent).  Handlers return either
an HTTP error (503/500 with detail) or a response body. -/

/-- The `ChatResponse` pydantic model (`api.py` lines 16-20). -/
structure ChatResponse where
  response : String
  success : Bool
  thread_id : Int
  error : Option String
deriving DecidableEq, Repr

/-- Constructing `ChatResponse(...)`: `thread_id` has no default, so
pydantic raises a `ValidationError` when it is omitted; `error` defaults
to `None`. -/
def mkChatResponse (response : String) (success : Bool)
    (thread_id : Option Int) (error : Option String) :
    Except String ChatResponse :=
  match thread_id with
  | some t => .ok { response := response, success := success,
                    thread_id := t, error := error }
  | none =>
      .error "1 validation error for ChatResponse: thread_id Field required"

/-- A handler outcome: a response body, or an `HTTPException` with a
status code and detail string. -/
inductive HandlerOutcome (α : Type) where
  | body (r : α)
  | httpError (code : Nat) (detail : String)
deriving DecidableEq, Repr

/-- The `conversation_histories` store (`api.py` line 58). -/
def Histories := Int → Option (List Turn)

/-- An empty store (no thread has a history yet). -/
def Histories.empty : Histories := fun _ => none

/-- Dict assignment `conversation_histories[t] = v`. -/
def Histories.set (h : Histories) (t : Int) (v : List Turn) : Histories :=
  fun t2 => if t2 = t then some v else h t2

/-- The `POST /invocations` handler (`api.py` lines 96-145) with an
initialized agent: get-or-create the thread's history, call
`agent.achat(question, chat_history)`, append the human and assistant
turns, and build the `ChatResponse` (here `thread_id` IS passed, so the
pydantic construction succeeds).  Returns the updated store and the
outcome. -/
def invocations (achat : String → List Turn → ChatResult)
    (histories : Histories) (thread_id : Int) (question : String) :
    Histories × HandlerOutcome ChatResponse :=
  let chat_history := (histories thread_id).getD []
  let result := achat question chat_history
  let histories2 := histories.set thread_id
    (chat_history ++ [(Role.human, question), (Role.assistant, result.output)])
  match mkChatResponse result.output result.success (some thread_id)
      result.error with
  | .ok r => (histories2, .body r)
  | .error e => (histories2, .httpError 500 e)

/-- The `POST /analyze-market` handler (`api.py` lines 148-175) with an
initialized agent: templated message, one-shot `achat` with no history,
then `ChatResponse(response=..., success=..., error=...)` — with NO
`thread_id` argument, as in the source.  The store is untouched. -/
def analyze_market (achat : String → List Turn → ChatResult)
    (symbol : String) : HandlerOutcome ChatResponse :=
  let message := "Please analyze the market for " ++ symbol ++
    ". Include current price, 24h statistics, and provide insights about the market conditions."
  let result := achat message []
  match mkChatResponse result.output result.success none result.error with
  | .ok r => .body r
  | .error e => .httpError 500 e

/-- The `POST /price` handler (`api.py` lines 178-202): same structure,
`thread_id` again omitted from the `ChatResponse` construction. -/
def get_price_endpoint (achat : String → List Turn → ChatResult)
    (symbol : String) : HandlerOutcome ChatResponse :=
  let message := "What is the current price of " ++ symbol ++ "?"
  let result := achat message []
  match mkChatResponse result.output result.success none result.error with
  | .ok r => .body r
  | .error e => .httpError 500 e

/-- The `POST /historical-data` handler (`api.py` lines 205-229):
`thread_id` again omitted from the `ChatResponse` construction. -/
def get_historical_data_endpoint (achat : String → List Turn → ChatResult)
    (symbol interval : String) (limit : Int) : HandlerOutcome ChatResponse :=
  let message := "Get historical data for " ++ symbol ++ " with " ++
    interval ++ " interval and " ++ toString limit ++
    " candles. Analyze the price trends and provide insights."
  let result := achat message []
  match mkChatResponse result.output result.success none result.error with
  | .ok r => .body r
  | .error e => .httpError 500 e

/-- The `POST /explain` handler (`api.py` lines 232-256): `thread_id`
again omitted from the `ChatResponse` construction. -/
def explain_concept (achat : String → List Turn → ChatResult)
    (concept : String) : HandlerOutcome ChatResponse :=
  let message :=
    "Please explain the following cryptocurrency/trading concept: " ++
    concept
  let result := achat message []
  match mkChatResponse result.output result.success none result.error with
  | .ok r => .body r
  | .error e => .httpError 500 e

/-! ### Reasoning loop (spec §4.3)

Modelled from the spec: the AWAITING_MODEL ↔ EXECUTING_TOOLS cycle runs
inside the external `AgentExecutor` library, not under `src/`; `agent.py`
(lines 67-73) only constructs it with `max_iterations=5`.  Following the
spec's state machine: each round trip consults the model with the
scratchpad; a terminal answer ends the loop successfully; tool requests
are executed, their result strings joined to the scratchpad, and the loop
repeats; a hard iteration counter bounds the cycle and exceeding it
terminates the request with a reported failure outcome. -/

/-- The `max_iterations` argument passed to `AgentExecutor`
(`agent.py` line 72). -/
def max_iterations : Nat := 5

/-- One model response: a terminal answer, or tool-call requests. -/
inductive ModelStep where
  | finalAnswer (s : String)
  | toolCalls (calls : List String)
deriving DecidableEq, Repr

/-- Outcome of one reasoning-loop run together with the number of
model/tool round trips it performed. -/
structure LoopResult where
  output : String
  success : Bool
  iterations : Nat
deriving DecidableEq, Repr

/-- Modelled from the spec: the bounded reasoning loop (§4.3).  `model`
maps the scratchpad to the next model step and `execTool` runs one tool
call; `fuel` is the remaining iteration budget.  Exhausting the budget
reports a failed outcome for the request. -/
def reasoningLoop (model : List String → ModelStep)
    (execTool : String → String) :
    Nat → List String → LoopResult
  | 0, _ =>
      { output := "Agent stopped: could not complete within the iteration limit."
        success := false
        iterations := 0 }
  | Nat.succ fuel, scratchpad =>
      match model scratchpad with
      | .finalAnswer s =>
          { output := s, success := true, iterations := 1 }
      | .toolCalls calls =>
          let observations := calls.map execTool
          let rest := reasoningLoop model execTool fuel
            (scratchpad ++ observations)
          { rest with iterations := rest.iterations + 1 }

/-- A single chat invocation's reasoning loop as configured by
`agent.py`: budget `max_iterations = 5`, empty initial scratchpad. -/
def runAgentLoop (model : List String → ModelStep)
    (execTool : String → String) : LoopResult :=
  reasoningLoop model execTool max_iterations []

/-! ### Concrete test inputs

Synthetic data used to instantiate the theorems: a 100-candle window with
known extrema (max high 50000 at index 57, min low 9000 at index 23), a
window whose first candle opens at `"0"`, and simple agent oracles. -/

/-- Synthetic kline row `i` of the 100-candle test window. -/
def testRow (i : Nat) : RawKline :=
  { openTime := (i : Int)
    rOpen := "10000"
    rHigh := if i = 57 then "50000" else "10500"
    rLow := if i = 23 then "9000" else "9500"
    rClose := "10200"
    rVolume := "120" }

/-- 100 synthetic candles with max high 50000 and min low 9000. -/
def testKlines : List RawKline := (List.range 100).map testRow

/-- The parsed last-10 candles of the test window. -/
def testCandles : List Candle :=
  ((mapE parseCandle (testKlines.drop (testKlines.length - 10))).toOption).getD []

/-- All parsed highs of the test window. -/
def testHighs : List ℚ :=
  ((mapE (fun k => pyFloatE k.rHigh) testKlines).toOption).getD []

/-- All parsed lows of the test window. -/
def testLows : List ℚ :=
  ((mapE (fun k => pyFloatE k.rLow) testKlines).toOption).getD []

/-- All parsed volumes of the test window. -/
def testVolumes : List ℚ :=
  ((mapE (fun k => pyFloatE k.rVolume) testKlines).toOption).getD []

/-- Synthetic kline row whose first candle has open price `"0"`. -/
def zeroRow (i : Nat) : RawKline :=
  { openTime := (i : Int)
    rOpen := if i = 0 then "0" else "10"
    rHigh := "12"
    rLow := "8"
    rClose := "11"
    rVolume := "5" }

/-- A 3-candle window whose first open is zero. -/
def zeroKlines : List RawKline := (List.range 3).map zeroRow

/-- An agent oracle that always answers `"ok"` successfully. -/
def okAgent : String → List Turn → ChatResult :=
  fun _ _ => { output := "ok", success := true, error := none }

/-- An agent oracle that always reports a failure. -/
def failAgent : String → List Turn → ChatResult :=
  fun _ _ => { output := "Error processing request: boom", success := false,
               error := some "boom" }

/-- A store in which thread 123 already holds three turns. -/
def testHistories : Histories :=
  fun t => if t = 123 then
    some [(Role.human, "a"), (Role.assistant, "b"), (Role.human, "c")]
  else none

/-- A model oracle that requests a tool call forever. -/
def loopyModel : List String → ModelStep :=
  fun _ => .toolCalls ["get_current_price"]

/-! ### Helper lemmas -/

/-- A string contains the word `Error` somewhere. -/
def ContainsError (s : String) : Prop :=
  ∃ a b : String, s = a ++ "Error" ++ b

lemma containsError_of_eq {s : String} (rest : String)
    (h : s = "Error" ++ rest) : ContainsError s :=
  ⟨"", rest, by rw [h, String.empty_append]⟩

lemma foldl_max_bounds (x : ℚ) (l : List ℚ) :
    x ≤ l.foldl max x ∧ ∀ y ∈ l, y ≤ l.foldl max x := by
  induction l generalizing x with
  | nil => exact ⟨le_refl x, by simp⟩
  | cons a t ih =>
      refine ⟨le_trans (le_max_left x a) (ih (max x a)).1, ?_⟩
      intro y hy
      rcases List.mem_cons.mp hy with rfl | hy
      · exact le_trans (le_max_right x y) (ih (max x y)).1
      · exact (ih (max x a)).2 y hy

lemma foldl_max_mem (x : ℚ) (l : List ℚ) :
    l.foldl max x = x ∨ l.foldl max x ∈ l := by
  induction l generalizing x with
  | nil => exact Or.inl rfl
  | cons a t ih =>
      simp only [List.foldl_cons]
      rcases ih (max x a) with h | h
      · rcases max_choice x a with hc | hc
        · exact Or.inl (h.trans hc)
        · exact Or.inr (List.mem_cons.mpr (Or.inl (h.trans hc)))
      · exact Or.inr (List.mem_cons_of_mem a h)

lemma foldl_min_bounds (x : ℚ) (l : List ℚ) :
    l.foldl min x ≤ x ∧ ∀ y ∈ l, l.foldl min x ≤ y := by
  induction l generalizing x with
  | nil => exact ⟨le_refl x, by simp⟩
  | cons a t ih =>
      refine ⟨le_trans (ih (min x a)).1 (min_le_left x a), ?_⟩
      intro y hy
      rcases List.mem_cons.mp hy with rfl | hy
      · exact le_trans (ih (min x y)).1 (min_le_right x y)
      · exact (ih (min x a)).2 y hy

lemma foldl_min_mem (x : ℚ) (l : List ℚ) :
    l.foldl min x = x ∨ l.foldl min x ∈ l := by
  induction l generalizing x with
  | nil => exact Or.inl rfl
  | cons a t ih =>
      simp only [List.foldl_cons]
      rcases ih (min x a) with h | h
      · rcases min_choice x a with hc | hc
        · exact Or.inl (h.trans hc)
        · exact Or.inr (List.mem_cons.mpr (Or.inl (h.trans hc)))
      · exact Or.inr (List.mem_cons_of_mem a h)

/-- `pyMax` returns a member that bounds the whole list from above. -/
lemma pyMax_spec {l : List ℚ} {m : ℚ} (h : pyMax l = some m) :
    m ∈ l ∧ ∀ y ∈ l, y ≤ m := by
  cases l with
  | nil => simp [pyMax] at h
  | cons x xs =>
      simp only [pyMax, Option.some.injEq] at h
      subst h
      constructor
      · rcases foldl_max_mem x xs with h | h
        · rw [h]; exact List.mem_cons_self x xs
        · exact List.mem_cons_of_mem x h
      · intro y hy
        rcases List.mem_cons.mp hy with rfl | hy
        · exact (foldl_max_bounds y xs).1
        · exact (foldl_max_bounds x xs).2 y hy

/-- `pyMin` returns a member that bounds the whole list from below. -/
lemma pyMin_spec {l : List ℚ} {m : ℚ} (h : pyMin l = some m) :
    m ∈ l ∧ ∀ y ∈ l, m ≤ y := by
  cases l with
  | nil => simp [pyMin] at h
  | cons x xs =>
      simp only [pyMin, Option.some.injEq] at h
      subst h
      constructor
      · rcases foldl_min_mem x xs with h | h
        · rw [h]; exact List.mem_cons_self x xs
        · exact List.mem_cons_of_mem x h
      · intro y hy
        rcases List.mem_cons.mp hy with rfl | hy
        · exact (foldl_min_bounds y xs).1
        · exact (foldl_min_bounds x xs).2 y hy

@[simp] lemma exc_bind_ok {α β : Type} (a : α) (f : α → Except String β) :
    (Except.ok a : Except String α) >>= f = f a := rfl

@[simp] lemma exc_bind_error {α β : Type} (e : String)
    (f : α → Except String β) :
    (Except.error e : Except String α) >>= f = Except.error e := rfl

/-- A successful `mapE` yields a list of the same length. -/
lemma mapE_ok_length {α β : Type} (f : α → Except String β) :
    ∀ (l : List α) (l2 : List β), mapE f l = .ok l2 → l2.length = l.length := by
  intro l
  induction l with
  | nil =>
      intro l2 h
      simp only [mapE] at h
      cases h
      rfl
  | cons a t ih =>
      intro l2 h
      simp only [mapE] at h
      cases hfa : f a with
      | error e => rw [hfa] at h; simp at h
      | ok b =>
          rw [hfa] at h
          simp only [exc_bind_ok] at h
          cases hmt : mapE f t with
          | error e => rw [hmt] at h; simp at h
          | ok bs =>
              rw [hmt] at h
              simp only [exc_bind_ok, pure] at h
              cases h
              simp [ih bs hmt]

/-- Characterization of the historical-data try-block on a parsed window:
given the intermediate parses, the computation fails exactly on a zero
first open (float division by zero) and otherwise returns the result dict
with statistics over the entire window. -/
lemma histdata_runE_eq
    (symbol interval : String) (klines : List RawKline)
    (candles : List Candle) (all_highs all_lows all_volumes : List ℚ)
    (k0 klast : RawKline) (first_open last_close highest lowest : ℚ)
    (hcand : mapE parseCandle (klines.drop (klines.length - 10)) =
      .ok candles)
    (hh : mapE (fun k => pyFloatE k.rHigh) klines = .ok all_highs)
    (hl : mapE (fun k => pyFloatE k.rLow) klines = .ok all_lows)
    (hv : mapE (fun k => pyFloatE k.rVolume) klines = .ok all_volumes)
    (hk0 : klines.head? = some k0)
    (hkl : klines.getLast? = some klast)
    (hfo : pyFloatE k0.rOpen = .ok first_open)
    (hlc : pyFloatE klast.rClose = .ok last_close)
    (hmax : pyMax all_highs = some highest)
    (hmin : pyMin all_lows = some lowest)
    (hvne : all_volumes.isEmpty = false) :
    GetHistoricalDataTool.runE symbol interval (.ok klines) =
      if first_open = 0 then Except.error "float division by zero"
      else Except.ok
        { symbol := pyUpper symbol
          interval := interval
          total_candles := klines.length
          recent_candles := candles
          statistics :=
            { highest_price := highest
              lowest_price := lowest
              average_volume := all_volumes.sum / (all_volumes.length : ℚ)
              price_change := last_close - first_open
              price_change_percent :=
                (last_close - first_open) / first_open * 100 } } := by
  have hvne2 : all_volumes ≠ [] := by simpa using hvne
  by_cases h0 : first_open = 0 <;>
    simp [GetHistoricalDataTool.runE, hcand, hh, hl, hv, hk0, hkl, hfo,
      hlc, hmax, hmin, hvne2, h0, pure, Except.pure]

lemma containsError_append3 (t symbol mid e : String) :
    ContainsError ("Error" ++ t ++ symbol ++ mid ++ e) :=
  ⟨"", t ++ symbol ++ mid ++ e, by
    simp [String.append_assoc, String.empty_append]⟩

/-! ### Claim theorems -/

/-- C1: for every message and every chat history (including `None`, modelled
by `Option.none`), `chat` and `achat` are total functions of the executor's
outcome — they never re-raise.  When the executor invocation raises `e`,
the result is the `success:false` dict with a human-readable output and the
error field set to `str(e)`; when it returns a result dict, the result has
`success:true` and the output string (with the fallback text when the
`output` key is absent). -/
theorem chat_achat_never_raise
    (invoke : String → List Turn → InvokeOutcome)
    (message : String) (chat_history : Option (List Turn)) :
    (∀ result, invoke message (chat_history.getD []) = .ok result →
      BinanceLangChainAgent.chat invoke message chat_history =
        { output := result.getD "I couldn't process your request."
          success := true, error := none } ∧
      BinanceLangChainAgent.achat invoke message chat_history =
        { output := result.getD "I couldn't process your request."
          success := true, error := none }) ∧
    (∀ e, invoke message (chat_history.getD []) = .error e →
      BinanceLangChainAgent.chat invoke message chat_history =
        { output := "Error processing request: " ++ e
          success := false, error := some e } ∧
      BinanceLangChainAgent.achat invoke message chat_history =
        { output := "Error processing request: " ++ e
          success := false, error := some e }) := by
  constructor
  · intro result h
    constructor <;>
      simp [BinanceLangChainAgent.chat, BinanceLangChainAgent.achat, h]
  · intro e h
    constructor <;>
      simp [BinanceLangChainAgent.chat, BinanceLangChainAgent.achat, h]

/-- Witness for C1: a raising executor at a concrete input. -/
theorem chat_achat_never_raise_witness :
    BinanceLangChainAgent.chat (fun _ _ => Except.error "boom") "hi" none =
      { output := "Error processing request: boom", success := false,
        error := some "boom" } ∧
    BinanceLangChainAgent.achat (fun _ _ => Except.error "boom") "hi" none =
      { output := "Error processing request: boom", success := false,
        error := some "boom" } :=
  (chat_achat_never_raise (fun _ _ => Except.error "boom") "hi" none).2
    "boom" rfl

/-- C9: the `get_klines` request parameters carry the upper-cased symbol
and an effective limit of `min(limit, 1000)`; in particular every
requested limit above 1000 is clamped to exactly 1000. -/
theorem get_klines_clamps (symbol interval : String) (limit : Int) :
    (BinancePublicAPI.get_klines_params symbol interval limit).symbol =
      pyUpper symbol ∧
    (BinancePublicAPI.get_klines_params symbol interval limit).limit =
      min limit 1000 ∧
    (1000 < limit →
      (BinancePublicAPI.get_klines_params symbol interval limit).limit =
        1000) := by
  refine ⟨rfl, rfl, fun h => ?_⟩
  simp [BinancePublicAPI.get_klines_params, min_eq_right (le_of_lt h)]

/-- Witness for C9: a 5000-candle request is clamped to 1000 and the
symbol is upper-cased. -/
theorem get_klines_clamps_witness :
    (1000 : Int) < 5000 ∧
    (BinancePublicAPI.get_klines_params "btcusdt" "1h" 5000).limit = 1000 ∧
    (BinancePublicAPI.get_klines_params "btcusdt" "1h" 5000).symbol =
      "BTCUSDT" :=
  ⟨by norm_num,
   (get_klines_clamps "btcusdt" "1h" 5000).2.2 (by norm_num),
   by rw [(get_klines_clamps "btcusdt" "1h" 5000).1]; decide⟩

/-- C2: each of the three tool adapters' `_run` is a total function of the
client-call outcome: whenever its try-block (client call or result
reshaping) raises `e`, the adapter returns the descriptive string
`Error getting ... for symbol: e` — which contains `"Error"` — instead of
propagating, and whenever the try-block succeeds it returns its value. -/
theorem tool_adapters_never_propagate
    (symbol interval : String)
    (priceResp tickerResp : Except String (List (String × String)))
    (klinesResp : Except String (List RawKline)) :
    ((∀ e, GetCurrentPriceTool.runE symbol priceResp = .error e →
        GetCurrentPriceTool.run symbol priceResp =
          "Error getting price for " ++ symbol ++ ": " ++ e ∧
        ContainsError (GetCurrentPriceTool.run symbol priceResp)) ∧
     (∀ s, GetCurrentPriceTool.runE symbol priceResp = .ok s →
        GetCurrentPriceTool.run symbol priceResp = s)) ∧
    ((∀ e, GetMarketSummaryTool.runE tickerResp = .error e →
        GetMarketSummaryTool.run symbol tickerResp =
          "Error getting market summary for " ++ symbol ++ ": " ++ e ∧
        ContainsError (GetMarketSummaryTool.run symbol tickerResp)) ∧
     (∀ m, GetMarketSummaryTool.runE tickerResp = .ok m →
        GetMarketSummaryTool.run symbol tickerResp = marketSummaryJson m)) ∧
    ((∀ e, GetHistoricalDataTool.runE symbol interval klinesResp =
          .error e →
        GetHistoricalDataTool.run symbol interval klinesResp =
          "Error getting historical data for " ++ symbol ++ ": " ++ e ∧
        ContainsError (GetHistoricalDataTool.run symbol interval
          klinesResp)) ∧
     (∀ r, GetHistoricalDataTool.runE symbol interval klinesResp = .ok r →
        GetHistoricalDataTool.run symbol interval klinesResp =
          histResultJson r)) := by
  refine ⟨⟨fun e h => ⟨?_, ?_⟩, fun s h => ?_⟩,
          ⟨fun e h => ⟨?_, ?_⟩, fun m h => ?_⟩,
          ⟨fun e h => ⟨?_, ?_⟩, fun r h => ?_⟩⟩
  · simp [GetCurrentPriceTool.run, h]
  · have h1 : ("Error getting price for " : String) =
        "Error" ++ " getting price for " := rfl
    simp only [GetCurrentPriceTool.run, h]
    rw [h1]
    exact containsError_append3 _ _ _ _
  · simp [GetCurrentPriceTool.run, h]
  · simp [GetMarketSummaryTool.run, h]
  · have h1 : ("Error getting market summary for " : String) =
        "Error" ++ " getting market summary for " := rfl
    simp only [GetMarketSummaryTool.run, h]
    rw [h1]
    exact containsError_append3 _ _ _ _
  · simp [GetMarketSummaryTool.run, h]
  · simp [GetHistoricalDataTool.run, h]
  · have h1 : ("Error getting historical data for " : String) =
        "Error" ++ " getting historical data for " := rfl
    simp only [GetHistoricalDataTool.run, h]
    rw [h1]
    exact containsError_append3 _ _ _ _
  · simp [GetHistoricalDataTool.run, h]

/-- Witness for C2: a 400 response for the invalid symbol `ZZZINVALID`
yields `Error ...` strings from all three adapters. -/
theorem tool_adapters_never_propagate_witness :
    GetCurrentPriceTool.run "ZZZINVALID"
        (Except.error "400 Client Error: Bad Request") =
      "Error getting price for " ++ "ZZZINVALID" ++ ": " ++
        "400 Client Error: Bad Request" ∧
    ContainsError (GetCurrentPriceTool.run "ZZZINVALID"
      (Except.error "400 Client Error: Bad Request")) ∧
    GetHistoricalDataTool.run "ZZZINVALID" "1h"
        (Except.error "400 Client Error: Bad Request") =
      "Error getting historical data for " ++ "ZZZINVALID" ++ ": " ++
        "400 Client Error: Bad Request" ∧
    ContainsError (GetHistoricalDataTool.run "ZZZINVALID" "1h"
      (Except.error "400 Client Error: Bad Request")) :=
  let T := tool_adapters_never_propagate "ZZZINVALID" "1h"
    (Except.error "400 Client Error: Bad Request")
    (Except.error "400 Client Error: Bad Request")
    (Except.error "400 Client Error: Bad Request")
  ⟨(T.1.1 "400 Client Error: Bad Request" rfl).1,
   (T.1.1 "400 Client Error: Bad Request" rfl).2,
   (T.2.2.1 "400 Client Error: Bad Request" rfl).1,
   (T.2.2.1 "400 Client Error: Bad Request" rfl).2⟩

/-- C4 (code bug in `api.py`): with an initialized agent and a returned
agent result dict, each of the four stateless endpoints constructs
`ChatResponse(response=..., success=..., error=...)` WITHOUT the required
`thread_id` field, so pydantic raises a `ValidationError` inside the
handler's try-block and every request ends in `HTTPException 500` —
never in the documented `{response, success, thread_id, error?}` body. -/
theorem stateless_endpoints_always_500
    (achat : String → List Turn → ChatResult)
    (symbol interval concept : String) (limit : Int) :
    analyze_market achat symbol = .httpError 500
      "1 validation error for ChatResponse: thread_id Field required" ∧
    get_price_endpoint achat symbol = .httpError 500
      "1 validation error for ChatResponse: thread_id Field required" ∧
    get_historical_data_endpoint achat symbol interval limit =
      .httpError 500
        "1 validation error for ChatResponse: thread_id Field required" ∧
    explain_concept achat concept = .httpError 500
      "1 validation error for ChatResponse: thread_id Field required" :=
  ⟨rfl, rfl, rfl, rfl⟩

/-- C6: the `POST /invocations` handler resolves the thread's history
(empty on first use), invokes the agent with the question and that
existing history, appends the (human, question) and (assistant, reply)
turns, and returns a body mirroring the agent result with the request's
`thread_id`. -/
theorem invocations_contract
    (achat : String → List Turn → ChatResult) (histories : Histories)
    (t : Int) (q : String) :
    invocations achat histories t q =
      (histories.set t ((histories t).getD [] ++
          [(Role.human, q),
           (Role.assistant, (achat q ((histories t).getD [])).output)]),
       .body
         { response := (achat q ((histories t).getD [])).output
           success := (achat q ((histories t).getD [])).success
           thread_id := t
           error := (achat q ((histories t).getD [])).error }) ∧
    (histories t = none →
      (invocations achat histories t q).1 t =
        some [(Role.human, q), (Role.assistant, (achat q []).output)]) := by
  constructor
  · rfl
  · intro h
    simp [invocations, mkChatResponse, Histories.set, h]

/-- Witness for C6: first use of thread 7 creates its history. -/
theorem invocations_contract_witness :
    Histories.empty 7 = none ∧
    (invocations okAgent Histories.empty 7 "hello").1 7 =
      some [(Role.human, "hello"), (Role.assistant, "ok")] :=
  ⟨rfl, (invocations_contract okAgent Histories.empty 7 "hello").2 rfl⟩

/-- C5: a request addressed to thread `t` never reads or mutates the
stored history of a distinct thread `A` — the store at `A` is untouched,
and the outcome depends only on the store's value at `t` — and the
thread's own history is strictly append-only: exactly the two new turns
are appended after the existing ones. -/
theorem invocations_thread_isolation
    (achat : String → List Turn → ChatResult) (h1 h2 : Histories)
    (t A : Int) (q : String) (hA : A ≠ t) (hagree : h1 t = h2 t) :
    (invocations achat h1 t q).1 A = h1 A ∧
    (invocations achat h1 t q).1 t =
      some ((h1 t).getD [] ++
        [(Role.human, q),
         (Role.assistant, (achat q ((h1 t).getD [])).output)]) ∧
    (invocations achat h1 t q).2 = (invocations achat h2 t q).2 ∧
    (invocations achat h1 t q).1 t = (invocations achat h2 t q).1 t := by
  refine ⟨?_, ?_, ?_, ?_⟩
  · simp [invocations, Histories.set, mkChatResponse, hA]
  · simp [invocations, Histories.set, mkChatResponse]
  · simp [invocations, mkChatResponse, hagree]
  · simp [invocations, Histories.set, mkChatResponse, hagree]

/-- Witness for C5: a request to thread 456 leaves thread 123's three
stored turns exactly as they were and gives thread 456 exactly its own
turns. -/
theorem invocations_thread_isolation_witness :
    (123 : Int) ≠ 456 ∧
    testHistories 123 =
      some [(Role.human, "a"), (Role.assistant, "b"), (Role.human, "c")] ∧
    (invocations okAgent testHistories 456 "hello").1 123 =
      some [(Role.human, "a"), (Role.assistant, "b"), (Role.human, "c")] ∧
    (invocations okAgent testHistories 456 "hello").1 456 =
      some [(Role.human, "hello"), (Role.assistant, "ok")] := by
  have h := invocations_thread_isolation okAgent testHistories testHistories
    456 123 "hello" (by decide) rfl
  exact ⟨by decide, rfl, by simpa [testHistories] using h.1,
    by simpa [testHistories, okAgent] using h.2.1⟩

/-- C10: even when the agent result has `success:false`, the
`POST /invocations` handler still appends exactly the two turns — the
question and then the failure text as the assistant turn — so agent
failures are not atomic with respect to conversation state. -/
theorem invocations_appends_failure_turns
    (achat : String → List Turn → ChatResult) (histories : Histories)
    (t : Int) (q o : String) (e : Option String)
    (hfail : achat q ((histories t).getD []) =
      { output := o, success := false, error := e }) :
    (invocations achat histories t q).1 t =
      some ((histories t).getD [] ++
        [(Role.human, q), (Role.assistant, o)]) ∧
    (((invocations achat histories t q).1 t).getD []).length =
      ((histories t).getD []).length + 2 ∧
    (invocations achat histories t q).2 =
      .body { response := o, success := false, thread_id := t,
              error := e } := by
  refine ⟨?_, ?_, ?_⟩ <;>
    simp [invocations, Histories.set, mkChatResponse, hfail]

/-- Witness for C10: a failing agent result is stored as the assistant
turn. -/
theorem invocations_appends_failure_turns_witness :
    failAgent "q" ((Histories.empty 9).getD []) =
      { output := "Error processing request: boom", success := false,
        error := some "boom" } ∧
    (invocations failAgent Histories.empty 9 "q").1 9 =
      some [(Role.human, "q"),
            (Role.assistant, "Error processing request: boom")] := by
  have h := (invocations_appends_failure_turns failAgent Histories.empty 9
    "q" "Error processing request: boom" (some "boom") rfl).1
  exact ⟨rfl, by simpa using h⟩

/-- C7: the reasoning loop performs at most `max_iterations = 5`
model/tool round trips per chat invocation; a model that keeps requesting
tool calls makes the loop terminate (it is a total function) with a
reported failure outcome rather than looping forever. -/
theorem reasoning_loop_bounded
    (model : List String → ModelStep) (execTool : String → String) :
    (∀ fuel scratchpad,
      (reasoningLoop model execTool fuel scratchpad).iterations ≤ fuel) ∧
    (runAgentLoop model execTool).iterations ≤ max_iterations ∧
    ((∀ scratchpad, ∃ calls, model scratchpad = .toolCalls calls) →
      (runAgentLoop model execTool).success = false ∧
      (runAgentLoop model execTool).output =
        "Agent stopped: could not complete within the iteration limit.") := by
  have hbound : ∀ fuel scratchpad,
      (reasoningLoop model execTool fuel scratchpad).iterations ≤ fuel := by
    intro fuel
    induction fuel with
    | zero => intro pad; simp [reasoningLoop]
    | succ n ih =>
        intro pad
        cases hm : model pad with
        | finalAnswer s => simp [reasoningLoop, hm]
        | toolCalls cs =>
            simp only [reasoningLoop, hm]
            exact Nat.succ_le_succ (ih _)
  have hloop : ∀ fuel scratchpad,
      (∀ p, ∃ calls, model p = .toolCalls calls) →
      reasoningLoop model execTool fuel scratchpad =
        { output :=
            "Agent stopped: could not complete within the iteration limit."
          success := false
          iterations := fuel } := by
    intro fuel
    induction fuel with
    | zero => intro pad _; rfl
    | succ n ih =>
        intro pad hall
        obtain ⟨calls, hc⟩ := hall pad
        simp [reasoningLoop, hc, ih _ hall]
  refine ⟨hbound, hbound max_iterations [], fun hall => ?_⟩
  rw [runAgentLoop, hloop max_iterations [] hall]
  exact ⟨rfl, rfl⟩

/-- Witness for C7: a model that always requests a tool call ends, within
5 iterations, in a reported failure. -/
theorem reasoning_loop_bounded_witness :
    (runAgentLoop loopyModel id).iterations ≤ max_iterations ∧
    (runAgentLoop loopyModel id).success = false ∧
    (runAgentLoop loopyModel id).output =
      "Agent stopped: could not complete within the iteration limit." :=
  ⟨(reasoning_loop_bounded loopyModel id).2.1,
   ((reasoning_loop_bounded loopyModel id).2.2
     (fun _ => ⟨["get_current_price"], rfl⟩)).1,
   ((reasoning_loop_bounded loopyModel id).2.2
     (fun _ => ⟨["get_current_price"], rfl⟩)).2⟩

section RatEval

set_option maxRecDepth 100000

attribute [local semireducible] Rat.add Rat.sub Rat.mul Rat.inv

/-- C3: on a successfully parsed non-empty candle window with nonzero
first open, the historical-data adapter echoes only the last 10 candles in
`recent_candles` (length `min 10 n`) while computing `highest_price` as
the maximum high, `lowest_price` as the minimum low, `average_volume` as
the mean volume, and `price_change`/`price_change_percent` from
first-candle open to last-candle close, all over the entire returned
window (the highs/lows/volumes lists have the full window's length). -/
theorem histdata_stats_full_window
    (symbol interval : String) (klines : List RawKline)
    (candles : List Candle) (all_highs all_lows all_volumes : List ℚ)
    (k0 klast : RawKline) (first_open last_close highest lowest : ℚ)
    (hcand : mapE parseCandle (klines.drop (klines.length - 10)) =
      .ok candles)
    (hh : mapE (fun k => pyFloatE k.rHigh) klines = .ok all_highs)
    (hl : mapE (fun k => pyFloatE k.rLow) klines = .ok all_lows)
    (hv : mapE (fun k => pyFloatE k.rVolume) klines = .ok all_volumes)
    (hk0 : klines.head? = some k0)
    (hkl : klines.getLast? = some klast)
    (hfo : pyFloatE k0.rOpen = .ok first_open)
    (hlc : pyFloatE klast.rClose = .ok last_close)
    (hmax : pyMax all_highs = some highest)
    (hmin : pyMin all_lows = some lowest)
    (hvne : all_volumes.isEmpty = false)
    (hfo0 : first_open ≠ 0) :
    GetHistoricalDataTool.runE symbol interval (.ok klines) =
      .ok
        { symbol := pyUpper symbol
          interval := interval
          total_candles := klines.length
          recent_candles := candles
          statistics :=
            { highest_price := highest
              lowest_price := lowest
              average_volume := all_volumes.sum / (all_volumes.length : ℚ)
              price_change := last_close - first_open
              price_change_percent :=
                (last_close - first_open) / first_open * 100 } } ∧
    candles.length = min 10 klines.length ∧
    highest ∈ all_highs ∧ (∀ y ∈ all_highs, y ≤ highest) ∧
    lowest ∈ all_lows ∧ (∀ y ∈ all_lows, lowest ≤ y) ∧
    all_highs.length = klines.length ∧
    all_lows.length = klines.length ∧
    all_volumes.length = klines.length := by
  refine ⟨?_, ?_, (pyMax_spec hmax).1, (pyMax_spec hmax).2,
    (pyMin_spec hmin).1, (pyMin_spec hmin).2,
    mapE_ok_length _ _ _ hh, mapE_ok_length _ _ _ hl,
    mapE_ok_length _ _ _ hv⟩
  · rw [histdata_runE_eq symbol interval klines candles all_highs all_lows
      all_volumes k0 klast first_open last_close highest lowest hcand hh
      hl hv hk0 hkl hfo hlc hmax hmin hvne, if_neg hfo0]
  · rw [mapE_ok_length _ _ _ hcand, List.length_drop]
    omega

/-- Witness for C3: 100 synthetic candles with max high 50000 (at index
57) and min low 9000 (at index 23): the statistics are exactly those
values although only 10 candles are echoed. -/
theorem histdata_stats_full_window_witness :
    testKlines.length = 100 ∧
    pyMax testHighs = some 50000 ∧
    pyMin testLows = some 9000 ∧
    GetHistoricalDataTool.runE "btcusdt" "1h" (.ok testKlines) =
      .ok
        { symbol := "BTCUSDT"
          interval := "1h"
          total_candles := 100
          recent_candles := testCandles
          statistics :=
            { highest_price := 50000
              lowest_price := 9000
              average_volume := 120
              price_change := 200
              price_change_percent := 2 } } ∧
    testCandles.length = 10 := by
  have h := histdata_stats_full_window "btcusdt" "1h" testKlines testCandles
    testHighs testLows testVolumes (testRow 0) (testRow 99) 10000 10200
    50000 9000 (by decide) (by decide) (by decide) (by decide) (by decide)
    (by decide) (by decide) (by decide) (by decide) (by decide) (by decide)
    (by decide)
  exact ⟨by decide, by decide, by decide, h.1.trans (by decide), by decide⟩

/-- C8: the percent-change division is guarded by the adapter's
try/except: a window whose first open is zero makes the Python float
division raise `ZeroDivisionError`, which `_run` converts into the
`Error getting historical data` string — no result carrying NaN/Inf is
produced — while for nonzero first open the returned
`price_change_percent` is exactly `(lastClose - firstOpen) / firstOpen *
100`. -/
theorem histdata_zero_open_guarded
    (symbol interval : String) (klines : List RawKline)
    (candles : List Candle) (all_highs all_lows all_volumes : List ℚ)
    (k0 klast : RawKline) (first_open last_close highest lowest : ℚ)
    (hcand : mapE parseCandle (klines.drop (klines.length - 10)) =
      .ok candles)
    (hh : mapE (fun k => pyFloatE k.rHigh) klines = .ok all_highs)
    (hl : mapE (fun k => pyFloatE k.rLow) klines = .ok all_lows)
    (hv : mapE (fun k => pyFloatE k.rVolume) klines = .ok all_volumes)
    (hk0 : klines.head? = some k0)
    (hkl : klines.getLast? = some klast)
    (hfo : pyFloatE k0.rOpen = .ok first_open)
    (hlc : pyFloatE klast.rClose = .ok last_close)
    (hmax : pyMax all_highs = some highest)
    (hmin : pyMin all_lows = some lowest)
    (hvne : all_volumes.isEmpty = false) :
    (first_open = 0 →
      GetHistoricalDataTool.runE symbol interval (.ok klines) =
        .error "float division by zero" ∧
      GetHistoricalDataTool.run symbol interval (.ok klines) =
        "Error getting historical data for " ++ symbol ++
          ": float division by zero") ∧
    (first_open ≠ 0 →
      Except.map (fun r => r.statistics.price_change_percent)
        (GetHistoricalDataTool.runE symbol interval (.ok klines)) =
        .ok ((last_close - first_open) / first_open * 100)) := by
  have hrun := histdata_runE_eq symbol interval klines candles all_highs
    all_lows all_volumes k0 klast first_open last_close highest lowest
    hcand hh hl hv hk0 hkl hfo hlc hmax hmin hvne
  constructor
  · intro h0
    refine ⟨?_, ?_⟩
    · rw [hrun, if_pos h0]
    · simp only [GetHistoricalDataTool.run, hrun, h0, if_pos]
      rw [String.append_assoc]
      rfl
  · intro h0
    rw [hrun, if_neg h0]
    rfl

/-- Witness for C8: a window opening at `"0"` yields the error string; the
100-candle test window yields exactly the formula's value. -/
theorem histdata_zero_open_guarded_witness :
    GetHistoricalDataTool.run "btcusdt" "1h" (.ok zeroKlines) =
      "Error getting historical data for " ++ "btcusdt" ++
        ": float division by zero" ∧
    Except.map (fun r => r.statistics.price_change_percent)
      (GetHistoricalDataTool.runE "btcusdt" "1h" (.ok testKlines)) =
      .ok ((10200 - 10000) / 10000 * 100) := by
  constructor
  · exact ((histdata_zero_open_guarded "btcusdt" "1h" zeroKlines
      [⟨0, 0, 12, 8, 11, 5⟩, ⟨1, 10, 12, 8, 11, 5⟩, ⟨2, 10, 12, 8, 11, 5⟩]
      [12, 12, 12] [8, 8, 8] [5, 5, 5] (zeroRow 0) (zeroRow 2) 0 11 12 8
      (by decide) (by decide) (by decide) (by decide) (by decide)
      (by decide) (by decide) (by decide) (by decide) (by decide)
      (by decide)).1 rfl).2
  · exact (histdata_zero_open_guarded "btcusdt" "1h" testKlines testCandles
      testHighs testLows testVolumes (testRow 0) (testRow 99) 10000 10200
      50000 9000 (by decide) (by decide) (by decide) (by decide)
      (by decide) (by decide) (by decide) (by decide) (by decide)
      (by decide) (by decide)).2 (by norm_num)

end RatEval

end BinanceAgent
